import Mathlib

/-!
Shallow embedding of the AI-Negotiation-Agent backend
(`src/Version 1/backend/main.py` and `src/Version 1/backend/gemini_service.py`).

The repository also references `models.py`, `database.py` and
`websocket_manager.py`, which are not present under `src/`; the pieces of
those modules that the claims need (the `NegotiationApproach` enum, the
data-model record types, the `ConnectionManager` send operations and the
product lookup) are modelled from the spec and from how `main.py` and
`gemini_service.py` use them, and are marked as such in their doc comments.

External effects are made explicit: wall-clock time is a monotone counter
threaded through the server state, uuid allocation is a counter, the
outbound websocket sends are an append-only delivery log of
(endpoint, payload) pairs, and the external Gemini call is an oracle
parameter of type `Except PyError String`.
-/

/-- Modelled from the spec: `models.py` (`NegotiationApproach`) is not under
`src/`; §6 fixes its values as the closed set assertive / diplomatic /
considerate. -/
inductive NegotiationApproach where
  | assertive
  | diplomatic
  | considerate

deriving DecidableEq, Repr

/-- Modelled from the spec: `models.py` (`ChatMessage`) is not under `src/`;
fields are those constructed in `main.py` (`handle_user_message`,
`handle_seller_message`) and serialized by `serialize_message`.  The uuid is
modelled as a `Nat` drawn from a counter and the timestamp as a `Nat` tick of
a monotone clock. -/
structure ChatMessage where
  id : Nat
  session_id : String
  sender : String
  content : String
  timestamp : Nat
  sender_type : String

deriving DecidableEq, Repr

/-- Modelled from the spec: `models.py` (`Product`) is not under `src/`;
fields are the ones read by `gemini_service.py` (title, price, condition,
seller_name, location). -/
structure Product where
  id : String
  title : String
  price : Int
  condition : String
  seller_name : String
  location : String

deriving DecidableEq, Repr

/-- Modelled from the spec: `models.py` (`NegotiationParams`) is not under
`src/`; fields are the ones read by `main.py` (product_id, approach,
target_price, max_budget).  The approach arrives as free text (the source
duck-types it), so it is a `String` here. -/
structure NegotiationParams where
  product_id : String
  target_price : Int
  max_budget : Int
  approach : String

deriving DecidableEq, Repr

/-- Modelled from the spec: `models.py` (`NegotiationSession`) is not under
`src/`; fields are the ones constructed and mutated by `main.py`
(`start_negotiation`, the message handlers and `end_negotiation`). -/
structure NegotiationSession where
  id : String
  product_id : String
  user_params : NegotiationParams
  status : String
  created_at : Nat
  messages : List ChatMessage
  final_price : Option Int := none
  outcome : Option String := none
  ended_at : Option Nat := none

deriving DecidableEq, Repr

/-- A Python-level exception, as far as the embedded code distinguishes them:
`typeError` is the `TypeError` raised by a call whose argument list does not
match the callee signature; `apiError` stands for any exception raised by
the Gemini API round-trip. -/
inductive PyError where
  | typeError
  | apiError

deriving DecidableEq, Repr

/-- Does `hay` start with `needle`? -/
def charsStartWith : List Char → List Char → Bool
  | [], _ => true
  | _ :: _, [] => false
  | a :: as, b :: bs => a == b && charsStartWith as bs

/-- Does `needle` occur as a contiguous run inside `hay`? -/
def charsContain (needle : List Char) : List Char → Bool
  | [] => charsStartWith needle []
  | b :: bs => charsStartWith needle (b :: bs) || charsContain needle bs

/-- Substring test: Python `needle in hay` on strings. -/
def containsSub (hay needle : String) : Bool :=
  charsContain needle.toList hay.toList

/-- Python `str.lower()`, modelled on the character list (the source only
ever compares ASCII keywords, for which `Char.toLower` agrees). -/
def strLower (s : String) : String :=
  String.mk (s.toList.map Char.toLower)

/-- Python `l[-n:]`: the last at most `n` elements. -/
def takeLast (n : Nat) (l : List α) : List α :=
  l.drop (l.length - n)

/-- Group a reversed digit list in threes, inserting commas (helper for the
Python `:,` format specifier). -/
def groupRev : List Char → List Char
  | a :: b :: c :: d :: rest => a :: b :: c :: ',' :: groupRev (d :: rest)
  | l => l

/-- Python format `f"{n:,}"`: decimal digits grouped in threes by commas. -/
def fmtComma (n : Int) : String :=
  let grouped := String.mk (groupRev (toString n.natAbs).toList.reverse).reverse
  if n < 0 then "-" ++ grouped else grouped

/-- Source `gemini_service.py` lines 36-40 (and the identical lines 167-172): the
duck-typed approach string is lowercased and parsed against the enum; a
`ValueError` (no enum member with that value) falls back to DIPLOMATIC. -/
def normalizeApproach (s : String) : NegotiationApproach :=
  if strLower s = "assertive" then NegotiationApproach.assertive
  else if strLower s = "diplomatic" then NegotiationApproach.diplomatic
  else if strLower s = "considerate" then NegotiationApproach.considerate
  else NegotiationApproach.diplomatic

/-- Source `GeminiAIService._get_fallback_response` (gemini_service.py lines
158-238), after the approach has been normalized.  The `counter_offer`
computation `int(target_price * 1.15)` goes through a Python float; it is
modelled with exact integer arithmetic, which no claim depends on.  Line 229
of the source returns a plain (non-f) string, so the text
`\x7btarget_price:,\x7d` there is literal output, reproduced as such. -/
def get_fallback_response (approach : NegotiationApproach) (target_price : Int)
    (chat_history : List ChatMessage) (product : Product) : String :=
  let seller_messages := chat_history.filter (fun m => m.sender == "seller")
  match seller_messages.getLast? with
  | none =>
    match approach with
    | NegotiationApproach.assertive =>
        "Hello " ++ product.seller_name ++ "! I\x27m interested in your listing. Based on current market rates, I\x27d like to offer ₹" ++ fmtComma target_price ++ ". Is this acceptable?"
    | NegotiationApproach.diplomatic =>
        "Good day " ++ product.seller_name ++ "! I\x27m very interested in your product. Would you consider an offer of ₹" ++ fmtComma target_price ++ "? I believe it\x27s a fair price given the current market."
    | NegotiationApproach.considerate =>
        "Hi " ++ product.seller_name ++ "! I\x27m really interested in your listing. My budget is a bit tight at ₹" ++ fmtComma target_price ++ ". Would this work for you?"
  | some lastSeller =>
    let last_message := strLower lastSeller.content
    if containsSub last_message "hi" || containsSub last_message "hello" || containsSub last_message "available" then
      match approach with
      | NegotiationApproach.assertive =>
          "Hello " ++ product.seller_name ++ "! Yes, I\x27m very interested. I can offer ₹" ++ fmtComma target_price ++ " for immediate purchase. When can we meet?"
      | NegotiationApproach.diplomatic =>
          "Hi there " ++ product.seller_name ++ "! Yes, I\x27m interested in your listing. The item looks great. Would ₹" ++ fmtComma target_price ++ " work for you?"
      | NegotiationApproach.considerate =>
          "Hello " ++ product.seller_name ++ "! Yes, I\x27m interested. I\x27m hoping to stay within ₹" ++ fmtComma target_price ++ " if possible. Could we work something out?"
    else if containsSub last_message "price" || containsSub last_message "cost" || containsSub last_message "amount" then
      match approach with
      | NegotiationApproach.assertive =>
          "Based on market research, ₹" ++ fmtComma target_price ++ " is what I can offer. It\x27s competitive and fair."
      | NegotiationApproach.diplomatic =>
          "I\x27ve been looking at similar items, and ₹" ++ fmtComma target_price ++ " seems reasonable. What do you think?"
      | NegotiationApproach.considerate =>
          "I understand the value, but my budget is limited to ₹" ++ fmtComma target_price ++ ". Is there any flexibility?"
    else if containsSub last_message "no" || containsSub last_message "cannot" || containsSub last_message "firm" || containsSub last_message "minimum" then
      let counter_offer := min (target_price * 115 / 100) (target_price + 5000)
      match approach with
      | NegotiationApproach.assertive =>
          "I understand. Let me stretch my budget to ₹" ++ fmtComma counter_offer ++ ". This is really my maximum."
      | NegotiationApproach.diplomatic =>
          "I appreciate your position. Could we perhaps meet at ₹" ++ fmtComma counter_offer ++ "? That would really help both of us."
      | NegotiationApproach.considerate =>
          "I really want this item. Could you please consider ₹" ++ fmtComma counter_offer ++ "? It would mean a lot to me."
    else if containsSub last_message "yes" || containsSub last_message "okay" || containsSub last_message "accept" || containsSub last_message "deal" then
      "Excellent! That works perfectly for me. When would be convenient for pickup? I can arrange payment immediately."
    else if containsSub last_message "meet" || containsSub last_message "pickup" || containsSub last_message "delivery" then
      "Perfect! I\x27m flexible with timing. I can come today or tomorrow, whatever works best for you. Should I bring cash or is online transfer preferred?"
    else if containsSub last_message "condition" || containsSub last_message "working" || containsSub last_message "problem" then
      "Thank you for the details. As long as everything is as described, I\x27m happy to proceed with ₹\x7btarget_price:,\x7d. Can we finalize this?"
    else
      match approach with
      | NegotiationApproach.assertive =>
          "Let me be direct - I can offer ₹" ++ fmtComma target_price ++ " and arrange pickup today. This is a fair market price."
      | NegotiationApproach.diplomatic =>
          "I\x27ve researched similar listings and ₹" ++ fmtComma target_price ++ " seems to be the going rate. Would you consider this offer?"
      | NegotiationApproach.considerate =>
          "I\x27m really hoping we can work something out at ₹" ++ fmtComma target_price ++ ". This would really help with my budget constraints."

/-- Source `GeminiAIService._build_negotiation_context` (gemini_service.py lines
59-140): the prompt assembled for the Gemini call, after the approach has
been normalized.  The triple-quoted f-string is modelled as the same text
with the interpolations spliced in. -/
def build_negotiation_context (approach : NegotiationApproach)
    (target_price max_budget : Int) (chat_history : List ChatMessage)
    (product : Product) : String :=
  let seller_messages := chat_history.filter (fun m => m.sender == "seller")
  let last_seller_message :=
    match seller_messages.getLast? with
    | some m => m.content
    | none => ""
  let conversation_history :=
    String.join ((takeLast 6 chat_history).map (fun m =>
      (if m.sender == "seller" then "Seller" else "You (Buyer)") ++ ": " ++ m.content ++ "\n"))
  let style :=
    match approach with
    | NegotiationApproach.assertive => "direct and confident"
    | NegotiationApproach.diplomatic => "balanced and respectful"
    | NegotiationApproach.considerate => "empathetic and budget-conscious"
  let tactics :=
    match approach with
    | NegotiationApproach.assertive => "Make firm offers, emphasize market research, be persistent but polite"
    | NegotiationApproach.diplomatic => "Find mutual benefits, acknowledge seller\x27s position, propose win-win solutions"
    | NegotiationApproach.considerate => "Explain budget constraints, show genuine interest, be patient"
  let personality :=
    match approach with
    | NegotiationApproach.assertive => "business-like and decisive"
    | NegotiationApproach.diplomatic => "professional and understanding"
    | NegotiationApproach.considerate => "humble and appreciative"
  let approachValue :=
    match approach with
    | NegotiationApproach.assertive => "assertive"
    | NegotiationApproach.diplomatic => "diplomatic"
    | NegotiationApproach.considerate => "considerate"
  "\nYou are an AI negotiation agent representing a buyer who wants to purchase: " ++ product.title
    ++ "\n\nPRODUCT DETAILS:\n- Current asking price: ₹" ++ fmtComma product.price
    ++ "\n- Your target price: ₹" ++ fmtComma target_price
    ++ "\n- Your maximum budget: ₹" ++ fmtComma max_budget
    ++ "\n- Product condition: " ++ product.condition
    ++ "\n- Seller: " ++ product.seller_name
    ++ "\n- Location: " ++ product.location
    ++ "\n\nNEGOTIATION APPROACH: " ++ approachValue.toUpper
    ++ "\n- Style: " ++ style
    ++ "\n- Tactics: " ++ tactics
    ++ "\n- Personality: " ++ personality
    ++ "\n\nCONVERSATION HISTORY:\n" ++ conversation_history
    ++ "\n\nLATEST SELLER MESSAGE: \"" ++ last_seller_message ++ "\""
    ++ "\n\nINSTRUCTIONS:\n1. Respond as a human buyer (never mention you\x27re an AI)\n2. Use the " ++ approachValue
    ++ " negotiation approach consistently\n3. Stay within your budget constraints (max ₹" ++ fmtComma max_budget
    ++ ")\n4. Work towards your target price of ₹" ++ fmtComma target_price
    ++ "\n5. Keep responses conversational and natural (50-80 words)\n6. Include relevant details about pickup/payment when appropriate\n7. Be respectful but persistent in negotiations\n8. If the seller\x27s price is too high, explain your position clearly\n9. If a good deal is reached, move towards closing (exchange contact details)\n\nCURRENT SITUATION ANALYSIS:\n- Current offer/price being discussed: Look at the conversation\n- Progress towards target: Calculate if you\x27re getting closer\n- Seller\x27s flexibility: Assess from their responses\n\nGenerate your next response as the buyer:\n"

/-- An argument passed at a Python call site, tagged with its runtime type. -/
inductive PyArg where
  | approachArg (a : NegotiationApproach)
  | priceArg (n : Int)
  | histArg (h : List ChatMessage)
  | productArg (p : Product)

/-- A Python-level call into `_get_fallback_response`.  The callee signature
(gemini_service.py lines 158-164) requires four positional arguments —
approach, target_price, chat_history, product — so any other argument list
raises `TypeError` at the call site instead of running the body. -/
def get_fallback_response_call : List PyArg → Except PyError String
  | [PyArg.approachArg a, PyArg.priceArg t, PyArg.histArg h, PyArg.productArg p] =>
      Except.ok (get_fallback_response a t h p)
  | _ => Except.error PyError.typeError

/-- Source `GeminiAIService.generate_response` (gemini_service.py lines 25-57).
`model` is `self.model`: `none` when `setup_client` failed, otherwise the
Gemini round-trip as an oracle from the built prompt to either the response
text or a raised exception (`_call_gemini_api` re-raises, lines 142-156, and
`.strip()` is applied to a successful response).  On an API exception the
recovery call at line 57 passes only three arguments to
`_get_fallback_response`, which is modelled by `get_fallback_response_call`
on that argument list. -/
def generate_response (model : Option (String → Except PyError String))
    (approach : String) (target_price max_budget : Int)
    (chat_history : List ChatMessage) (product : Product) : Except PyError String :=
  let appr := normalizeApproach approach
  match model with
  | none => Except.ok (get_fallback_response appr target_price chat_history product)
  | some callApi =>
    let context := build_negotiation_context appr target_price max_budget chat_history product
    match callApi context with
    | Except.ok text => Except.ok text.trim
    | Except.error _ =>
        get_fallback_response_call
          [PyArg.approachArg appr, PyArg.priceArg target_price, PyArg.histArg chat_history]

/-- Python dict lookup `d[k]` / `k in d`, on an insertion-ordered
association list. -/
def dictGet (k : String) : List (String × α) → Option α
  | [] => none
  | (k2, v) :: rest => if k2 = k then some v else dictGet k rest

/-- Python dict assignment `d[k] = v`: overwrite in place, else append. -/
def dictSet (k : String) (v : α) : List (String × α) → List (String × α)
  | [] => [(k, v)]
  | (k2, v2) :: rest => if k2 = k then (k, v) :: rest else (k2, v2) :: dictSet k v rest

/-- Python `del d[k]`. -/
def dictDel (k : String) : List (String × α) → List (String × α)
  | [] => []
  | (k2, v2) :: rest => if k2 = k then rest else (k2, v2) :: dictDel k rest

/-- The `result` dict taken by the `end_negotiation` route (main.py lines
303-311): `result.get("final_price")` and `result.get("outcome", "unknown")`. -/
structure EndResult where
  final_price : Option Int
  outcome : Option String

deriving DecidableEq, Repr

/-- An outbound websocket payload, one constructor per `"type"` tag built in
`main.py`; `message` / `ai_response` carry the serialized `ChatMessage` and
the `"sender"` label, `error` carries the `"message"` text, `session_ended`
carries the raw `result` dict. -/
inductive Payload where
  | message (m : ChatMessage) (sender : String)
  | aiResponse (m : ChatMessage) (sender : String)
  | error (text : String)
  | sessionEnded (result : EndResult)

deriving DecidableEq, Repr

/-- The mutable server state of `main.py`: the global `active_sessions`
dict, the `ConnectionManager`'s per-session seller and user endpoints
(endpoints named by `Nat` identities), an append-only log of every payload
delivered to an endpoint, the monotone wall clock and the uuid counter. -/
structure ServerState where
  active_sessions : List (String × NegotiationSession)
  seller_conns : List (String × Nat)
  user_conns : List (String × Nat)
  delivered : List (Nat × Payload)
  clock : Nat
  next_id : Nat

deriving DecidableEq, Repr

/-- Modelled from the spec: `websocket_manager.py` (`ConnectionManager`) is
not under `src/`.  §4.1 `Send`: deliver to the currently-registered
seller-side endpoint of the session; with no endpoint registered the send is
dropped silently (peer absent is non-fatal, never an exception). -/
def send_to_seller (st : ServerState) (session_id : String) (p : Payload) : ServerState :=
  match dictGet session_id st.seller_conns with
  | some ep => { st with delivered := st.delivered ++ [(ep, p)] }
  | none => st

/-- Modelled from the spec: `websocket_manager.py` (`ConnectionManager`) is
not under `src/`.  §4.1 `Send` for the user-side role, as `send_to_seller`. -/
def send_to_user (st : ServerState) (session_id : String) (p : Payload) : ServerState :=
  match dictGet session_id st.user_conns with
  | some ep => { st with delivered := st.delivered ++ [(ep, p)] }
  | none => st

/-- The `ChatMessage` built by `handle_user_message` (main.py lines 187-194):
sender `"user"`, sender_type `"override"`, fresh uuid, `datetime.now()`. -/
def userMsg (st : ServerState) (session_id content : String) : ChatMessage :=
  { id := st.next_id, session_id := session_id, sender := "user",
    content := content, timestamp := st.clock, sender_type := "override" }

/-- The `ChatMessage` built by `handle_seller_message` (main.py lines
218-225): sender `"seller"`, sender_type `"human"`. -/
def sellerMsg (st : ServerState) (session_id content : String) : ChatMessage :=
  { id := st.next_id, session_id := session_id, sender := "seller",
    content := content, timestamp := st.clock, sender_type := "human" }

/-- Source `handle_user_message` (main.py lines 179-207): drop unknown sessions,
append the override message to the session history, send one copy to the
seller side labeled sender `"buyer"`.  (`db.save_session` is the persistence
collaborator, a no-op stub per §6.) -/
def handle_user_message (st : ServerState) (session_id content : String) : ServerState :=
  match dictGet session_id st.active_sessions with
  | none => st
  | some session =>
    let message := userMsg st session_id content
    let st1 : ServerState :=
      { st with
        active_sessions :=
          dictSet session_id { session with messages := session.messages ++ [message] }
            st.active_sessions,
        clock := st.clock + 1, next_id := st.next_id + 1 }
    send_to_seller st1 session_id (Payload.message message "buyer")

/-- Source `handle_seller_message` (main.py lines 210-283): drop unknown sessions,
append the seller message, relay it to the user side labeled `"seller"`,
then invoke generation (`gen` is the oracle for the
`ai_service.generate_response` await: `Except.ok text` when it returns,
`Except.error` when it raises).  On success append the AI message and fan it
out — to the seller side labeled `"buyer"`, to the user side as an
`ai_response`; on failure append nothing more and send one `error` payload
to the user side only. -/
def handle_seller_message (st : ServerState) (session_id content : String)
    (gen : Except PyError String) : ServerState :=
  match dictGet session_id st.active_sessions with
  | none => st
  | some session =>
    let seller_message := sellerMsg st session_id content
    let session1 := { session with messages := session.messages ++ [seller_message] }
    let st1 : ServerState :=
      { st with
        active_sessions := dictSet session_id session1 st.active_sessions,
        clock := st.clock + 1, next_id := st.next_id + 1 }
    let st2 := send_to_user st1 session_id (Payload.message seller_message "seller")
    match gen with
    | Except.ok text =>
      let ai_message : ChatMessage :=
        { id := st2.next_id, session_id := session_id, sender := "ai",
          content := text, timestamp := st2.clock, sender_type := "ai" }
      let session2 := { session1 with messages := session1.messages ++ [ai_message] }
      let st3 : ServerState :=
        { st2 with
          active_sessions := dictSet session_id session2 st2.active_sessions,
          clock := st2.clock + 1, next_id := st2.next_id + 1 }
      let st4 := send_to_seller st3 session_id (Payload.message ai_message "buyer")
      send_to_user st4 session_id (Payload.aiResponse ai_message "ai")
    | Except.error _ =>
      send_to_user st2 session_id (Payload.error "Failed to generate AI response")

/-- Source `end_negotiation` (main.py lines 303-333): when the session is active,
mark it completed, stamp final price / outcome / end time, notify both
sides with `session_ended`, and evict it from `active_sessions`; when it is
not in `active_sessions` the body is skipped entirely.  Either way the route
returns the literal success message. -/
def end_negotiation (st : ServerState) (session_id : String) (result : EndResult) :
    ServerState × String :=
  match dictGet session_id st.active_sessions with
  | some session =>
    let session2 :=
      { session with
        status := "completed", final_price := result.final_price,
        outcome := some (result.outcome.getD "unknown"), ended_at := some st.clock }
    let st1 : ServerState :=
      { st with
        active_sessions := dictSet session_id session2 st.active_sessions,
        clock := st.clock + 1 }
    let st2 := send_to_user st1 session_id (Payload.sessionEnded result)
    let st3 := send_to_seller st2 session_id (Payload.sessionEnded result)
    ({ st3 with active_sessions := dictDel session_id st3.active_sessions },
     "Negotiation ended successfully")
  | none => (st, "Negotiation ended successfully")

/-- Source `start_negotiation` (main.py lines 110-140): allocate a fresh session id
(uuid modelled by the counter), register the session — `active` status,
empty history — in `active_sessions`, then look the product up (`products`
stands for the database collaborator's catalog).  A missing product raises
`HTTPException(404)`, which the blanket `except` rewraps as status 500 —
note the session stays registered in that case; on success the route
returns the session id and the product. -/
def start_negotiation (st : ServerState) (products : List (String × Product))
    (params : NegotiationParams) : ServerState × Except Nat (String × Product) :=
  let session_id := "session-" ++ toString st.next_id
  let session : NegotiationSession :=
    { id := session_id, product_id := params.product_id, user_params := params,
      status := "active", created_at := st.clock, messages := [] }
  let st1 : ServerState :=
    { st with
      active_sessions := dictSet session_id session st.active_sessions,
      clock := st.clock + 1, next_id := st.next_id + 1 }
  match dictGet params.product_id products with
  | none => (st1, Except.error 500)
  | some product => (st1, Except.ok (session_id, product))

/-- One inbound websocket event on a session: either a user-side override or
a seller message together with the outcome of its generation call. -/
inductive SessionEvent where
  | user (content : String)
  | seller (content : String) (gen : Except PyError String)

/-- Dispatch one inbound event to its handler, as the two websocket loops in
`main.py` (lines 143-176) do. -/
def applyEvent (session_id : String) (st : ServerState) : SessionEvent → ServerState
  | SessionEvent.user content => handle_user_message st session_id content
  | SessionEvent.seller content gen => handle_seller_message st session_id content gen

/-- Run a sequence of inbound events for one session in acceptance order
(per-session handling is serialized, spec §5). -/
def runEvents (session_id : String) (st : ServerState) : List SessionEvent → ServerState
  | [] => st
  | e :: rest => runEvents session_id (applyEvent session_id st e) rest

/-- The (sender, content) pairs of the history entries one accepted event
appends: an override appends its own entry; a seller message appends the
seller entry, plus the AI entry exactly when generation succeeds. -/
def eventEntries : SessionEvent → List (String × String)
  | SessionEvent.user content => [("user", content)]
  | SessionEvent.seller content (Except.ok text) => [("seller", content), ("ai", text)]
  | SessionEvent.seller content (Except.error _) => [("seller", content)]

/-- The serialized `ChatMessage` a delivered payload carries, when it
carries one. -/
def payloadMsg : Payload → Option ChatMessage
  | Payload.message m _ => some m
  | Payload.aiResponse m _ => some m
  | _ => none

/-- Is a delivered payload an `error` payload? -/
def isErrorPayload : Payload → Bool
  | Payload.error _ => true
  | _ => false

/-- Timestamps are monotonically non-decreasing along a history. -/
def timestampsMono (l : List ChatMessage) : Prop :=
  List.Pairwise (fun a b => a.timestamp ≤ b.timestamp) l

instance : DecidablePred timestampsMono := fun l =>
  inferInstanceAs (Decidable (List.Pairwise _ l))

/-- A sample product, as the catalog entries `database.py` serves. -/
def demoProduct : Product :=
  { id := "p1", title := "Mountain Bike", price := 8000, condition := "Used - good",
    seller_name := "Ravi", location := "Chennai" }

/-- Sample negotiation parameters. -/
def demoParams : NegotiationParams :=
  { product_id := "p1", target_price := 5000, max_budget := 6000, approach := "diplomatic" }

/-- A freshly started session, as `start_negotiation` creates them. -/
def demoSession : NegotiationSession :=
  { id := "s1", product_id := "p1", user_params := demoParams,
    status := "active", created_at := 0, messages := [] }

/-- A server state with one active session whose both endpoints are
attached: seller endpoint 1, user endpoint 2. -/
def demoState : ServerState :=
  { active_sessions := [("s1", demoSession)],
    seller_conns := [("s1", 1)], user_conns := [("s1", 2)],
    delivered := [], clock := 3, next_id := 0 }

/-- A server state with one active session and no endpoint attached on
either side. -/
def demoStateNoConns : ServerState :=
  { active_sessions := [("s1", demoSession)],
    seller_conns := [], user_conns := [],
    delivered := [], clock := 3, next_id := 0 }

/-- The AI `ChatMessage` of a successful seller turn, expressed in terms of
the state at the start of the turn (the uuid counter and clock have each
advanced once for the seller message). -/
def aiMsgAt (st : ServerState) (session_id text : String) : ChatMessage :=
  { id := st.next_id + 1, session_id := session_id, sender := "ai",
    content := text, timestamp := st.clock + 1, sender_type := "ai" }

/-- A sample `result` body for the end-negotiation route. -/
def demoEndResult : EndResult := { final_price := some 5500, outcome := some "deal" }

/-- The server state after ending the demo session once. -/
def endedOnce : ServerState := (end_negotiation demoState "s1" demoEndResult).1

deriving instance DecidableEq for Except

/-- The empty server state at process start. -/
def initState : ServerState :=
  { active_sessions := [], seller_conns := [], user_conns := [],
    delivered := [], clock := 0, next_id := 0 }

/-- The catalog served by the database collaborator in the demo. -/
def demoProducts : List (String × Product) := [("p1", demoProduct)]

/-- Parameters whose target price exceeds the maximum budget. -/
def overBudgetParams : NegotiationParams :=
  { product_id := "p1", target_price := 9000, max_budget := 6000, approach := "diplomatic" }

/-- The delivery-log contribution of one `Send`: one entry when an endpoint
is registered for the slot, nothing when the peer is absent. -/
def matchSend (o : Option Nat) (p : Payload) : List (Nat × Payload) :=
  match o with
  | some ep => [(ep, p)]
  | none => []

/-- The observable identity of a history entry: who sent it and what it
said. -/
def tagOf (m : ChatMessage) : String × String := (m.sender, m.content)

/-- The (sender, content) view of a session's history, `none` when the
session is not active. -/
def histTags (st : ServerState) (sid : String) : Option (List (String × String)) :=
  (dictGet sid st.active_sessions).map (fun s2 => s2.messages.map tagOf)

/-- A session's history, empty when the session is not active. -/
def histMessages (st : ServerState) (sid : String) : List ChatMessage :=
  ((dictGet sid st.active_sessions).map NegotiationSession.messages).getD []

/-- A short demo trace: an override, a seller turn whose generation
succeeds, and a seller turn whose generation fails. -/
def demoEvents : List SessionEvent :=
  [SessionEvent.user "hi",
   SessionEvent.seller "offer 7000" (Except.ok "how about 5000"),
   SessionEvent.seller "cannot go lower" (Except.error PyError.apiError)]

theorem dictGet_dictSet_self (k : String) (v : α) :
    ∀ d : List (String × α), dictGet k (dictSet k v d) = some v := by
  intro d
  induction d with
  | nil => simp [dictGet, dictSet]
  | cons p rest ih =>
    obtain ⟨k2, v2⟩ := p
    by_cases h : k2 = k
    · simp [dictGet, dictSet, h]
    · simp [dictGet, dictSet, h, ih]

theorem send_to_seller_sessions (st : ServerState) (sid : String) (p : Payload) :
    (send_to_seller st sid p).active_sessions = st.active_sessions := by
  unfold send_to_seller
  cases dictGet sid st.seller_conns <;> rfl

theorem send_to_user_sessions (st : ServerState) (sid : String) (p : Payload) :
    (send_to_user st sid p).active_sessions = st.active_sessions := by
  unfold send_to_user
  cases dictGet sid st.user_conns <;> rfl

theorem send_to_seller_clock (st : ServerState) (sid : String) (p : Payload) :
    (send_to_seller st sid p).clock = st.clock := by
  unfold send_to_seller
  cases dictGet sid st.seller_conns <;> rfl

theorem send_to_user_clock (st : ServerState) (sid : String) (p : Payload) :
    (send_to_user st sid p).clock = st.clock := by
  unfold send_to_user
  cases dictGet sid st.user_conns <;> rfl

theorem send_to_seller_next_id (st : ServerState) (sid : String) (p : Payload) :
    (send_to_seller st sid p).next_id = st.next_id := by
  unfold send_to_seller
  cases dictGet sid st.seller_conns <;> rfl

theorem send_to_user_next_id (st : ServerState) (sid : String) (p : Payload) :
    (send_to_user st sid p).next_id = st.next_id := by
  unfold send_to_user
  cases dictGet sid st.user_conns <;> rfl

theorem send_to_seller_seller_conns (st : ServerState) (sid : String) (p : Payload) :
    (send_to_seller st sid p).seller_conns = st.seller_conns := by
  unfold send_to_seller
  cases dictGet sid st.seller_conns <;> rfl

theorem send_to_seller_user_conns (st : ServerState) (sid : String) (p : Payload) :
    (send_to_seller st sid p).user_conns = st.user_conns := by
  unfold send_to_seller
  cases dictGet sid st.seller_conns <;> rfl

theorem send_to_user_seller_conns (st : ServerState) (sid : String) (p : Payload) :
    (send_to_user st sid p).seller_conns = st.seller_conns := by
  unfold send_to_user
  cases dictGet sid st.user_conns <;> rfl

theorem send_to_user_user_conns (st : ServerState) (sid : String) (p : Payload) :
    (send_to_user st sid p).user_conns = st.user_conns := by
  unfold send_to_user
  cases dictGet sid st.user_conns <;> rfl

theorem send_to_seller_delivered (st : ServerState) (sid : String) (p : Payload) :
    (send_to_seller st sid p).delivered =
      st.delivered ++
        (match dictGet sid st.seller_conns with
         | some ep => [(ep, p)]
         | none => []) := by
  unfold send_to_seller
  cases dictGet sid st.seller_conns <;> simp

theorem send_to_user_delivered (st : ServerState) (sid : String) (p : Payload) :
    (send_to_user st sid p).delivered =
      st.delivered ++
        (match dictGet sid st.user_conns with
         | some ep => [(ep, p)]
         | none => []) := by
  unfold send_to_user
  cases dictGet sid st.user_conns <;> simp

theorem handle_user_message_eq (st : ServerState) (sid c : String) (s : NegotiationSession)
    (hs : dictGet sid st.active_sessions = some s) :
    handle_user_message st sid c =
      send_to_seller
        { st with
          active_sessions :=
            dictSet sid { s with messages := s.messages ++ [userMsg st sid c] }
              st.active_sessions,
          clock := st.clock + 1, next_id := st.next_id + 1 }
        sid (Payload.message (userMsg st sid c) "buyer") := by
  unfold handle_user_message
  rw [hs]

theorem hum_get (st : ServerState) (sid c : String) (s : NegotiationSession)
    (hs : dictGet sid st.active_sessions = some s) :
    dictGet sid (handle_user_message st sid c).active_sessions =
      some { s with messages := s.messages ++ [userMsg st sid c] } := by
  rw [handle_user_message_eq st sid c s hs, send_to_seller_sessions]
  exact dictGet_dictSet_self _ _ _

theorem hum_clock (st : ServerState) (sid c : String) (s : NegotiationSession)
    (hs : dictGet sid st.active_sessions = some s) :
    (handle_user_message st sid c).clock = st.clock + 1 := by
  rw [handle_user_message_eq st sid c s hs, send_to_seller_clock]

theorem hum_delivered (st : ServerState) (sid c : String) (s : NegotiationSession)
    (hs : dictGet sid st.active_sessions = some s) :
    (handle_user_message st sid c).delivered =
      st.delivered ++
        (match dictGet sid st.seller_conns with
         | some ep => [(ep, Payload.message (userMsg st sid c) "buyer")]
         | none => []) := by
  rw [handle_user_message_eq st sid c s hs, send_to_seller_delivered]

theorem hsm_ok_get (st : ServerState) (sid c text : String) (s : NegotiationSession)
    (hs : dictGet sid st.active_sessions = some s) :
    dictGet sid (handle_seller_message st sid c (Except.ok text)).active_sessions =
      some { s with messages := s.messages ++ [sellerMsg st sid c, aiMsgAt st sid text] } := by
  unfold handle_seller_message
  rw [hs]
  simp only [send_to_user_sessions, send_to_seller_sessions, send_to_user_next_id,
    send_to_user_clock, dictGet_dictSet_self, aiMsgAt, List.append_assoc,
    List.singleton_append, List.cons_append, List.nil_append]

theorem hsm_ok_clock (st : ServerState) (sid c text : String) (s : NegotiationSession)
    (hs : dictGet sid st.active_sessions = some s) :
    (handle_seller_message st sid c (Except.ok text)).clock = st.clock + 2 := by
  unfold handle_seller_message
  rw [hs]
  simp only [send_to_user_clock, send_to_seller_clock]

theorem hsm_ok_delivered (st : ServerState) (sid c text : String) (s : NegotiationSession)
    (se ue : Nat)
    (hs : dictGet sid st.active_sessions = some s)
    (hse : dictGet sid st.seller_conns = some se)
    (hue : dictGet sid st.user_conns = some ue) :
    (handle_seller_message st sid c (Except.ok text)).delivered =
      st.delivered ++
        [(ue, Payload.message (sellerMsg st sid c) "seller"),
         (se, Payload.message (aiMsgAt st sid text) "buyer"),
         (ue, Payload.aiResponse (aiMsgAt st sid text) "ai")] := by
  unfold handle_seller_message
  rw [hs]
  simp only [send_to_user_delivered, send_to_seller_delivered, send_to_user_sessions,
    send_to_seller_sessions, send_to_user_clock, send_to_seller_clock,
    send_to_user_next_id, send_to_seller_next_id, send_to_user_user_conns,
    send_to_user_seller_conns, send_to_seller_user_conns, send_to_seller_seller_conns,
    hse, hue, aiMsgAt, List.append_assoc, List.singleton_append, List.cons_append,
    List.nil_append]

theorem hsm_err_get (st : ServerState) (sid c : String) (e : PyError) (s : NegotiationSession)
    (hs : dictGet sid st.active_sessions = some s) :
    dictGet sid (handle_seller_message st sid c (Except.error e)).active_sessions =
      some { s with messages := s.messages ++ [sellerMsg st sid c] } := by
  unfold handle_seller_message
  rw [hs]
  simp only [send_to_user_sessions, dictGet_dictSet_self]

theorem hsm_err_clock (st : ServerState) (sid c : String) (e : PyError) (s : NegotiationSession)
    (hs : dictGet sid st.active_sessions = some s) :
    (handle_seller_message st sid c (Except.error e)).clock = st.clock + 1 := by
  unfold handle_seller_message
  rw [hs]
  simp only [send_to_user_clock]

theorem hsm_err_delivered (st : ServerState) (sid c : String) (e : PyError)
    (s : NegotiationSession) (ue : Nat)
    (hs : dictGet sid st.active_sessions = some s)
    (hue : dictGet sid st.user_conns = some ue) :
    (handle_seller_message st sid c (Except.error e)).delivered =
      st.delivered ++
        [(ue, Payload.message (sellerMsg st sid c) "seller"),
         (ue, Payload.error "Failed to generate AI response")] := by
  unfold handle_seller_message
  rw [hs]
  simp only [send_to_user_delivered, send_to_user_sessions, send_to_user_user_conns,
    hue, List.append_assoc, List.singleton_append, List.cons_append, List.nil_append]

/-- C9: for a session identifier not in `active_sessions`, both relay entry
points return the state unchanged — nothing is appended to any history,
nothing is delivered, and no error is raised or reported. -/
theorem unknown_session_noop_claim9 (st : ServerState) (sid c : String)
    (gen : Except PyError String)
    (hs : dictGet sid st.active_sessions = none) :
    handle_user_message st sid c = st ∧ handle_seller_message st sid c gen = st := by
  refine ⟨?_, ?_⟩
  · unfold handle_user_message
    rw [hs]
  · unfold handle_seller_message
    rw [hs]

theorem unknown_session_noop_claim9_witness :
    handle_user_message demoState "ghost" "hi" = demoState ∧
    handle_seller_message demoState "ghost" "hi" (Except.ok "t") = demoState :=
  unknown_session_noop_claim9 demoState "ghost" "hi" (Except.ok "t") (by decide)

/-- C5: a user-side override on an active session appends exactly one
message — sender `"user"` (the spec's origin `agent-side-user`), sender_type
`"override"` (provenance `override`) — to the session history, and delivers
exactly one copy, labeled sender `"buyer"`, to the seller-side endpoint;
nothing else is delivered and no generation is invoked (the handler has no
generation input at all). -/
theorem override_relay_claim5 (st : ServerState) (sid c : String)
    (s : NegotiationSession) (se : Nat)
    (hs : dictGet sid st.active_sessions = some s)
    (hse : dictGet sid st.seller_conns = some se) :
    (userMsg st sid c).sender = "user" ∧
    (userMsg st sid c).sender_type = "override" ∧
    dictGet sid (handle_user_message st sid c).active_sessions =
      some { s with messages := s.messages ++ [userMsg st sid c] } ∧
    (handle_user_message st sid c).delivered =
      st.delivered ++ [(se, Payload.message (userMsg st sid c) "buyer")] := by
  refine ⟨rfl, rfl, hum_get st sid c s hs, ?_⟩
  rw [hum_delivered st sid c s hs, hse]

theorem override_relay_claim5_witness :
    (userMsg demoState "s1" "hold on").sender = "user" ∧
    (userMsg demoState "s1" "hold on").sender_type = "override" ∧
    dictGet "s1" (handle_user_message demoState "s1" "hold on").active_sessions =
      some { demoSession with messages := demoSession.messages ++ [userMsg demoState "s1" "hold on"] } ∧
    (handle_user_message demoState "s1" "hold on").delivered =
      demoState.delivered ++ [(1, Payload.message (userMsg demoState "s1" "hold on") "buyer")] :=
  override_relay_claim5 demoState "s1" "hold on" demoSession 1 (by decide) (by decide)

/-- C1: a seller message accepted on an active session always appends exactly
one seller-origin message (sender `"seller"`, sender_type `"human"`) to that
session's history, and appends an agent message if and only if the
generation call succeeds; on success the agent message goes to the
seller-side endpoint labeled sender `"buyer"` and a second copy goes to the
user-side endpoint as an `ai_response` event. -/
theorem seller_turn_claim1 (st : ServerState) (sid c : String)
    (gen : Except PyError String) (s : NegotiationSession) (se ue : Nat)
    (hs : dictGet sid st.active_sessions = some s)
    (hse : dictGet sid st.seller_conns = some se)
    (hue : dictGet sid st.user_conns = some ue) :
    (sellerMsg st sid c).sender = "seller" ∧
    (sellerMsg st sid c).sender_type = "human" ∧
    match gen with
    | Except.ok text =>
        dictGet sid (handle_seller_message st sid c gen).active_sessions =
          some { s with messages := s.messages ++ [sellerMsg st sid c, aiMsgAt st sid text] } ∧
        (handle_seller_message st sid c gen).delivered =
          st.delivered ++
            [(ue, Payload.message (sellerMsg st sid c) "seller"),
             (se, Payload.message (aiMsgAt st sid text) "buyer"),
             (ue, Payload.aiResponse (aiMsgAt st sid text) "ai")]
    | Except.error _ =>
        dictGet sid (handle_seller_message st sid c gen).active_sessions =
          some { s with messages := s.messages ++ [sellerMsg st sid c] } := by
  refine ⟨rfl, rfl, ?_⟩
  cases gen with
  | ok text =>
    exact ⟨hsm_ok_get st sid c text s hs, hsm_ok_delivered st sid c text s se ue hs hse hue⟩
  | error e =>
    exact hsm_err_get st sid c e s hs

theorem seller_turn_claim1_witness :
    (sellerMsg demoState "s1" "price is 7000").sender = "seller" ∧
    (sellerMsg demoState "s1" "price is 7000").sender_type = "human" ∧
    (dictGet "s1" (handle_seller_message demoState "s1" "price is 7000" (Except.ok "Would 5000 work?")).active_sessions =
      some { demoSession with
             messages := demoSession.messages ++
               [sellerMsg demoState "s1" "price is 7000",
                aiMsgAt demoState "s1" "Would 5000 work?"] } ∧
    (handle_seller_message demoState "s1" "price is 7000" (Except.ok "Would 5000 work?")).delivered =
      demoState.delivered ++
        [(2, Payload.message (sellerMsg demoState "s1" "price is 7000") "seller"),
         (1, Payload.message (aiMsgAt demoState "s1" "Would 5000 work?") "buyer"),
         (2, Payload.aiResponse (aiMsgAt demoState "s1" "Would 5000 work?") "ai")]) :=
  seller_turn_claim1 demoState "s1" "price is 7000" (Except.ok "Would 5000 work?")
    demoSession 1 2 (by decide) (by decide) (by decide)

/-- C2: when generation fails for a seller message on an active session, no
agent message is appended — history gains only the seller entry — the
user-side endpoint receives exactly one `error` payload for the turn, and
the seller-side endpoint receives no payload at all for the turn. -/
theorem seller_failure_claim2 (st : ServerState) (sid c : String) (e : PyError)
    (s : NegotiationSession) (se ue : Nat)
    (hs : dictGet sid st.active_sessions = some s)
    ( _hse : dictGet sid st.seller_conns = some se)
    (hue : dictGet sid st.user_conns = some ue)
    (hne : se ≠ ue) :
    dictGet sid (handle_seller_message st sid c (Except.error e)).active_sessions =
      some { s with messages := s.messages ++ [sellerMsg st sid c] } ∧
    (handle_seller_message st sid c (Except.error e)).delivered =
      st.delivered ++
        [(ue, Payload.message (sellerMsg st sid c) "seller"),
         (ue, Payload.error "Failed to generate AI response")] ∧
    ((handle_seller_message st sid c (Except.error e)).delivered.drop
        st.delivered.length).filter (fun q => q.1 == se) = [] ∧
    ((handle_seller_message st sid c (Except.error e)).delivered.drop
        st.delivered.length).filter (fun q => isErrorPayload q.2) =
      [(ue, Payload.error "Failed to generate AI response")] := by
  have hd := hsm_err_delivered st sid c e s ue hs hue
  have hbe : (ue == se) = false := beq_eq_false_iff_ne.mpr (Ne.symm hne)
  refine ⟨hsm_err_get st sid c e s hs, hd, ?_, ?_⟩
  · rw [hd, List.drop_left]
    simp [List.filter, hbe]
  · rw [hd, List.drop_left]
    simp [List.filter, isErrorPayload]

theorem seller_failure_claim2_witness :
    dictGet "s1" (handle_seller_message demoState "s1" "no discount" (Except.error PyError.apiError)).active_sessions =
      some { demoSession with messages := demoSession.messages ++ [sellerMsg demoState "s1" "no discount"] } ∧
    (handle_seller_message demoState "s1" "no discount" (Except.error PyError.apiError)).delivered =
      demoState.delivered ++
        [(2, Payload.message (sellerMsg demoState "s1" "no discount") "seller"),
         (2, Payload.error "Failed to generate AI response")] ∧
    ((handle_seller_message demoState "s1" "no discount" (Except.error PyError.apiError)).delivered.drop
        demoState.delivered.length).filter (fun q => q.1 == 1) = [] ∧
    ((handle_seller_message demoState "s1" "no discount" (Except.error PyError.apiError)).delivered.drop
        demoState.delivered.length).filter (fun q => isErrorPayload q.2) =
      [(2, Payload.error "Failed to generate AI response")] :=
  seller_failure_claim2 demoState "s1" "no discount" PyError.apiError demoSession 1 2
    (by decide) (by decide) (by decide) (by decide)

/-- C3 (code versus claim): after a session has been ended once it is gone
from `active_sessions`, and a second End call on it is a silent no-op that
still reports the literal success message — it does not fail with
`SessionAlreadyEnded`; every session's history (the whole state) is left
unchanged. -/
theorem end_twice_claim3 :
    dictGet "s1" endedOnce.active_sessions = none ∧
    (end_negotiation endedOnce "s1" demoEndResult).2 = "Negotiation ended successfully" ∧
    (end_negotiation endedOnce "s1" demoEndResult).1 = endedOnce := by
  decide

/-- C6 (code versus claim): `start_negotiation` performs no target-versus-
budget validation: with a target price strictly above the maximum budget it
still reports success and registers an `active` session with empty history
in the session store. -/
theorem start_no_validation_claim6 :
    overBudgetParams.target_price > overBudgetParams.max_budget ∧
    (start_negotiation initState demoProducts overBudgetParams).2 =
      Except.ok ("session-0", demoProduct) ∧
    dictGet "session-0" (start_negotiation initState demoProducts overBudgetParams).1.active_sessions =
      some { id := "session-0", product_id := "p1", user_params := overBudgetParams,
             status := "active", created_at := 0, messages := [] } := by
  decide

/-- C10: with the model configured, an exception from the Gemini API call is
not recovered from — the line-57 call passes three arguments to the
four-parameter `_get_fallback_response`, so a `TypeError` propagates to the
caller; the fallback text is returned only when the model was never
configured. -/
theorem fallback_arity_claim10 (api : String → Except PyError String)
    (approach : String) (tp mb : Int) (hist : List ChatMessage) (product : Product)
    (e : PyError)
    (hfail : api (build_negotiation_context (normalizeApproach approach) tp mb hist product) =
      Except.error e) :
    generate_response (some api) approach tp mb hist product = Except.error PyError.typeError ∧
    generate_response none approach tp mb hist product =
      Except.ok (get_fallback_response (normalizeApproach approach) tp hist product) := by
  constructor
  · simp only [generate_response]
    rw [hfail]
    rfl
  · rfl

theorem fallback_arity_claim10_witness :
    generate_response (some (fun _ => Except.error PyError.apiError)) "diplomatic" 5000 6000 [] demoProduct =
      Except.error PyError.typeError ∧
    generate_response none "diplomatic" 5000 6000 [] demoProduct =
      Except.ok (get_fallback_response (normalizeApproach "diplomatic") 5000 [] demoProduct) :=
  fallback_arity_claim10 (fun _ => Except.error PyError.apiError) "diplomatic" 5000 6000 []
    demoProduct PyError.apiError rfl

/-- C8, counterexample to the claim as stated: the value "ASSERTIVE" is not
one of the closed set assertive / diplomatic / considerate, yet the
collaborator does not produce the diplomatic result for it — the source
lowercases the value before parsing, so "ASSERTIVE" behaves as assertive. -/
theorem approach_closed_set_counterexample_claim8 :
    ("ASSERTIVE" ≠ "assertive" ∧ "ASSERTIVE" ≠ "diplomatic" ∧ "ASSERTIVE" ≠ "considerate") ∧
    generate_response none "ASSERTIVE" 5000 6000 [] demoProduct ≠
      generate_response none "diplomatic" 5000 6000 [] demoProduct := by
  decide

/-- C8, amended: for every approach value whose lowercasing is not one of
the closed set assertive / diplomatic / considerate, the text-generation
collaborator produces the same result as it would with approach
`diplomatic`, for any model configuration. -/
theorem approach_fallback_amended_claim8 (model : Option (String → Except PyError String))
    (approach : String) (tp mb : Int) (hist : List ChatMessage) (product : Product)
    (h1 : strLower approach ≠ "assertive") (h2 : strLower approach ≠ "diplomatic")
    (h3 : strLower approach ≠ "considerate") :
    generate_response model approach tp mb hist product =
      generate_response model "diplomatic" tp mb hist product := by
  have hnorm : normalizeApproach approach = NegotiationApproach.diplomatic := by
    unfold normalizeApproach
    rw [if_neg h1, if_neg h2, if_neg h3]
  have hdip : normalizeApproach "diplomatic" = NegotiationApproach.diplomatic := by decide
  unfold generate_response
  rw [hnorm, hdip]

theorem approach_fallback_amended_claim8_witness :
    generate_response none "bananas" 5000 6000 [] demoProduct =
      generate_response none "diplomatic" 5000 6000 [] demoProduct :=
  approach_fallback_amended_claim8 none "bananas" 5000 6000 [] demoProduct
    (by decide) (by decide) (by decide)

theorem mem_matchSend {o : Option Nat} {p : Payload} {q : Nat × Payload}
    (h : q ∈ matchSend o p) : q.2 = p := by
  cases o with
  | none => simp [matchSend] at h
  | some ep => simp [matchSend] at h; rw [h]

theorem hsm_ok_delivered_gen (st : ServerState) (sid c text : String)
    (s : NegotiationSession)
    (hs : dictGet sid st.active_sessions = some s) :
    (handle_seller_message st sid c (Except.ok text)).delivered =
      st.delivered ++
        (matchSend (dictGet sid st.user_conns) (Payload.message (sellerMsg st sid c) "seller") ++
         (matchSend (dictGet sid st.seller_conns) (Payload.message (aiMsgAt st sid text) "buyer") ++
          matchSend (dictGet sid st.user_conns) (Payload.aiResponse (aiMsgAt st sid text) "ai"))) := by
  unfold handle_seller_message
  rw [hs]
  cases hu : dictGet sid st.user_conns <;> cases hsc : dictGet sid st.seller_conns <;>
    simp only [send_to_user_delivered, send_to_seller_delivered, send_to_user_sessions,
      send_to_seller_sessions, send_to_user_clock, send_to_seller_clock,
      send_to_user_next_id, send_to_seller_next_id, send_to_user_user_conns,
      send_to_user_seller_conns, send_to_seller_user_conns, send_to_seller_seller_conns,
      hu, hsc, aiMsgAt, matchSend, List.append_assoc, List.append_nil, List.nil_append,
      List.cons_append, List.singleton_append]

theorem hsm_err_delivered_gen (st : ServerState) (sid c : String) (e : PyError)
    (s : NegotiationSession)
    (hs : dictGet sid st.active_sessions = some s) :
    (handle_seller_message st sid c (Except.error e)).delivered =
      st.delivered ++
        (matchSend (dictGet sid st.user_conns) (Payload.message (sellerMsg st sid c) "seller") ++
         matchSend (dictGet sid st.user_conns) (Payload.error "Failed to generate AI response")) := by
  unfold handle_seller_message
  rw [hs]
  cases hu : dictGet sid st.user_conns <;>
    simp only [send_to_user_delivered, send_to_user_sessions, send_to_user_user_conns,
      hu, matchSend, List.append_assoc, List.append_nil, List.nil_append,
      List.cons_append, List.singleton_append]

theorem hum_delivered_gen (st : ServerState) (sid c : String) (s : NegotiationSession)
    (hs : dictGet sid st.active_sessions = some s) :
    (handle_user_message st sid c).delivered =
      st.delivered ++
        matchSend (dictGet sid st.seller_conns) (Payload.message (userMsg st sid c) "buyer") := by
  rw [hum_delivered st sid c s hs]
  cases hsc : dictGet sid st.seller_conns <;> simp [matchSend]

/-- C4: on an active session, a send to a role with no currently-registered
endpoint never raises (the handlers are total and the drop is silent): the
inbound message is appended to the session history regardless of delivery —
with the seller peer absent an override is still appended and nothing is
delivered, and with the user peer absent a seller message is still appended;
conversely every `ChatMessage` carried by a payload delivered during a
handler call is present in the session history after that call, so a message
is never delivered without having been appended. -/
theorem send_absent_peer_claim4 (st : ServerState) (sid c : String)
    (gen : Except PyError String) (s : NegotiationSession)
    (hs : dictGet sid st.active_sessions = some s) :
    (dictGet sid st.seller_conns = none →
      dictGet sid (handle_user_message st sid c).active_sessions =
        some { s with messages := s.messages ++ [userMsg st sid c] } ∧
      (handle_user_message st sid c).delivered = st.delivered) ∧
    (dictGet sid st.user_conns = none →
      ∃ s2, dictGet sid (handle_seller_message st sid c gen).active_sessions = some s2 ∧
        sellerMsg st sid c ∈ s2.messages) ∧
    (∀ q ∈ (handle_user_message st sid c).delivered.drop st.delivered.length,
      ∀ m, payloadMsg q.2 = some m →
        ∃ s2, dictGet sid (handle_user_message st sid c).active_sessions = some s2 ∧
          m ∈ s2.messages) ∧
    (∀ q ∈ (handle_seller_message st sid c gen).delivered.drop st.delivered.length,
      ∀ m, payloadMsg q.2 = some m →
        ∃ s2, dictGet sid (handle_seller_message st sid c gen).active_sessions = some s2 ∧
          m ∈ s2.messages) := by
  refine ⟨?_, ?_, ?_, ?_⟩
  · intro hsc
    refine ⟨hum_get st sid c s hs, ?_⟩
    rw [hum_delivered st sid c s hs, hsc, List.append_nil]
  · intro _
    cases gen with
    | ok text =>
      exact ⟨_, hsm_ok_get st sid c text s hs, by simp⟩
    | error e =>
      exact ⟨_, hsm_err_get st sid c e s hs, by simp⟩
  · intro q hq m hm
    rw [hum_delivered_gen st sid c s hs, List.drop_left] at hq
    have hp := mem_matchSend hq
    rw [hp] at hm
    simp only [payloadMsg, Option.some.injEq] at hm
    subst hm
    exact ⟨_, hum_get st sid c s hs, by simp⟩
  · intro q hq m hm
    cases gen with
    | ok text =>
      rw [hsm_ok_delivered_gen st sid c text s hs, List.drop_left] at hq
      refine ⟨_, hsm_ok_get st sid c text s hs, ?_⟩
      rcases List.mem_append.mp hq with h1 | h23
      · rw [mem_matchSend h1] at hm
        simp only [payloadMsg, Option.some.injEq] at hm
        subst hm; simp
      · rcases List.mem_append.mp h23 with h2 | h3
        · rw [mem_matchSend h2] at hm
          simp only [payloadMsg, Option.some.injEq] at hm
          subst hm; simp
        · rw [mem_matchSend h3] at hm
          simp only [payloadMsg, Option.some.injEq] at hm
          subst hm; simp
    | error e =>
      rw [hsm_err_delivered_gen st sid c e s hs, List.drop_left] at hq
      refine ⟨_, hsm_err_get st sid c e s hs, ?_⟩
      rcases List.mem_append.mp hq with h1 | h2
      · rw [mem_matchSend h1] at hm
        simp only [payloadMsg, Option.some.injEq] at hm
        subst hm; simp
      · rw [mem_matchSend h2] at hm
        simp [payloadMsg] at hm

theorem send_absent_peer_claim4_witness :
    dictGet "s1" (handle_user_message demoStateNoConns "s1" "checking in").active_sessions =
      some { demoSession with
             messages := demoSession.messages ++ [userMsg demoStateNoConns "s1" "checking in"] } ∧
    (handle_user_message demoStateNoConns "s1" "checking in").delivered =
      demoStateNoConns.delivered :=
  (send_absent_peer_claim4 demoStateNoConns "s1" "checking in" (Except.ok "t") demoSession
    (by decide)).1 (by decide)

theorem mono_append_one (l : List ChatMessage) (m : ChatMessage)
    (hm : timestampsMono l) (h : ∀ a ∈ l, a.timestamp ≤ m.timestamp) :
    timestampsMono (l ++ [m]) := by
  refine List.pairwise_append.mpr ⟨hm, List.pairwise_singleton _ _, ?_⟩
  intro a ha b hb
  simp only [List.mem_singleton] at hb
  subst hb
  exact h a ha

theorem runEvents_spec (sid : String) (evs : List SessionEvent) :
    ∀ (st : ServerState) (s : NegotiationSession),
      dictGet sid st.active_sessions = some s →
      timestampsMono s.messages →
      (∀ m ∈ s.messages, m.timestamp < st.clock) →
      ∃ s2, dictGet sid (runEvents sid st evs).active_sessions = some s2 ∧
        s2.messages.map tagOf = s.messages.map tagOf ++ (evs.map eventEntries).flatten ∧
        timestampsMono s2.messages ∧
        (∀ m ∈ s2.messages, m.timestamp < (runEvents sid st evs).clock) := by
  induction evs with
  | nil =>
    intro st s hs hm hb
    exact ⟨s, hs, by simp [runEvents], hm, hb⟩
  | cons e rest ih =>
    intro st s hs hm hb
    cases e with
    | user c =>
      have hget := hum_get st sid c s hs
      have hclk := hum_clock st sid c s hs
      have hm2 : timestampsMono (s.messages ++ [userMsg st sid c]) := by
        refine mono_append_one _ _ hm ?_
        intro a ha
        exact le_of_lt (hb a ha)
      have hb2 : ∀ m ∈ s.messages ++ [userMsg st sid c],
          m.timestamp < (handle_user_message st sid c).clock := by
        rw [hclk]
        intro m hmem
        rcases List.mem_append.mp hmem with h | h
        · exact Nat.lt_succ_of_lt (hb m h)
        · simp only [List.mem_singleton] at h
          subst h
          exact Nat.lt_succ_self _
      obtain ⟨s2, h1, h2, h3, h4⟩ := ih (handle_user_message st sid c) _ hget hm2 hb2
      refine ⟨s2, h1, ?_, h3, h4⟩
      rw [h2]
      simp [tagOf, userMsg, eventEntries]
    | seller c gen =>
      cases gen with
      | ok text =>
        have hget := hsm_ok_get st sid c text s hs
        have hclk := hsm_ok_clock st sid c text s hs
        have hrw : s.messages ++ [sellerMsg st sid c, aiMsgAt st sid text] =
            (s.messages ++ [sellerMsg st sid c]) ++ [aiMsgAt st sid text] := by simp
        have hm2 : timestampsMono (s.messages ++ [sellerMsg st sid c, aiMsgAt st sid text]) := by
          rw [hrw]
          refine mono_append_one _ _ ?_ ?_
          · refine mono_append_one _ _ hm ?_
            intro a ha
            exact le_of_lt (hb a ha)
          · intro a ha
            rcases List.mem_append.mp ha with h | h
            · exact le_of_lt (Nat.lt_succ_of_lt (hb a h))
            · simp only [List.mem_singleton] at h
              subst h
              exact Nat.le_succ _
        have hb2 : ∀ m ∈ s.messages ++ [sellerMsg st sid c, aiMsgAt st sid text],
            m.timestamp < (handle_seller_message st sid c (Except.ok text)).clock := by
          rw [hclk]
          intro m hmem
          rcases List.mem_append.mp hmem with h | h
          · exact Nat.lt_succ_of_lt (Nat.lt_succ_of_lt (hb m h))
          · simp only [List.mem_cons, List.not_mem_nil, or_false] at h
            rcases h with h | h
            · subst h
              exact Nat.lt_succ_of_lt (Nat.lt_succ_self _)
            · subst h
              exact Nat.lt_succ_self _
        obtain ⟨s2, h1, h2, h3, h4⟩ :=
          ih (handle_seller_message st sid c (Except.ok text)) _ hget hm2 hb2
        refine ⟨s2, h1, ?_, h3, h4⟩
        rw [h2]
        simp [tagOf, sellerMsg, aiMsgAt, eventEntries]
      | error e2 =>
        have hget := hsm_err_get st sid c e2 s hs
        have hclk := hsm_err_clock st sid c e2 s hs
        have hm2 : timestampsMono (s.messages ++ [sellerMsg st sid c]) := by
          refine mono_append_one _ _ hm ?_
          intro a ha
          exact le_of_lt (hb a ha)
        have hb2 : ∀ m ∈ s.messages ++ [sellerMsg st sid c],
            m.timestamp < (handle_seller_message st sid c (Except.error e2)).clock := by
          rw [hclk]
          intro m hmem
          rcases List.mem_append.mp hmem with h | h
          · exact Nat.lt_succ_of_lt (hb m h)
          · simp only [List.mem_singleton] at h
            subst h
            exact Nat.lt_succ_self _
        obtain ⟨s2, h1, h2, h3, h4⟩ :=
          ih (handle_seller_message st sid c (Except.error e2)) _ hget hm2 hb2
        refine ⟨s2, h1, ?_, h3, h4⟩
        rw [h2]
        simp [tagOf, sellerMsg, eventEntries]

/-- C7: starting from an active session whose history has monotone
timestamps all below the current clock (true of a fresh session, whose
history is empty), processing any sequence of accepted user-side and
seller-side events leaves timestamps monotonically non-decreasing in append
order, and the (sender, content) sequence of the history equals the prior
history followed by the entries of the events in exactly acceptance order. -/
theorem history_order_claim7 (st : ServerState) (sid : String) (s : NegotiationSession)
    (evs : List SessionEvent)
    (hs : dictGet sid st.active_sessions = some s)
    (hm : timestampsMono s.messages)
    (hb : ∀ m ∈ s.messages, m.timestamp < st.clock) :
    histTags (runEvents sid st evs) sid =
      some (s.messages.map tagOf ++ (evs.map eventEntries).flatten) ∧
    timestampsMono (histMessages (runEvents sid st evs) sid) := by
  obtain ⟨s2, h1, h2, h3, _⟩ := runEvents_spec sid evs st s hs hm hb
  constructor
  · unfold histTags
    rw [h1]
    simp [h2]
  · unfold histMessages
    rw [h1]
    simpa using h3

theorem history_order_claim7_witness :
    histTags (runEvents "s1" demoState demoEvents) "s1" =
      some (demoSession.messages.map tagOf ++ (demoEvents.map eventEntries).flatten) ∧
    timestampsMono (histMessages (runEvents "s1" demoState demoEvents) "s1") :=
  history_order_claim7 demoState "s1" demoSession demoEvents (by decide) (by decide) (by decide)
